import Mathlib

/-!
Shallow embedding of the smartPlayer repository (src/build_db.py and
src/nexttrack.py) and verification of its specification claims.

Modelling conventions:
* SQLite tables keyed by a TEXT primary key are association lists
  `List (String × row)`; `lookupA` is the keyed SELECT, `assocUpdate`
  the keyed UPDATE, `upsertA` the INSERT … ON CONFLICT DO UPDATE.
* SQL NULL is `Option.none`.  Python truthiness on DB values is
  `optStrTruthy` / `optIntTruthy` (`None` and `""` / `0` are falsy).
* The external MusicBrainz web service is a parameter
  `env : String → Except Unit MBRecording`: `.error` models any lookup
  exception (network failure, malformed response, unknown id), `.ok`
  a parsed recording payload.  Per-artist secondary tag fetches are
  folded into the payload as `Option (List MBTag)` (`none` = the
  credit had no artist key or the fetch raised and was swallowed).
* `json.dumps(recording)` is `dumpsRecording`, an opaque serialization;
  the pipeline relies only on the stored payload being non-empty text.
* I/O (prints, `time.sleep` pacing) is dropped; outcome log lines are
  kept as the `Outcome` inductive mirroring the status flags.
-/

namespace SmartPlayer

/-- Python truthiness of an optional DB string: `None` and `""` are falsy. -/
def optStrTruthy : Option String → Bool
  | none => false
  | some s => s ≠ ""

/-- Python truthiness of an optional DB integer: `None` and `0` are falsy. -/
def optIntTruthy : Option Int → Bool
  | none => false
  | some n => n ≠ 0

/-- Keyed SELECT over an association-list table (TEXT primary key). -/
def lookupA {α : Type} : List (String × α) → String → Option α
  | [], _ => none
  | kv :: rest, k => if kv.1 = k then some kv.2 else lookupA rest k

/-- Keyed UPDATE: replace the row at key `k` (no-op when absent). -/
def assocUpdate {α : Type} (l : List (String × α)) (k : String) (v : α) :
    List (String × α) :=
  l.map (fun kv => if kv.1 = k then (k, v) else kv)

/-- INSERT … ON CONFLICT(key) DO UPDATE: replace when present, append when absent. -/
def upsertA {α : Type} (l : List (String × α)) (k : String) (v : α) :
    List (String × α) :=
  if (lookupA l k).isSome then assocUpdate l k v else l ++ [(k, v)]

/-! ## build_db.py: data model -/

/-- One row of the `tracks` table created by `create_db`. -/
structure TrackRow where
  track_mbid : Option String
  artist_mbid : Option String
  release_group_mbid : Option String
  genre : Option String
  year : Option Int
  album_type : Option String
  embedding : Option String
deriving DecidableEq, Repr

/-- One row of the `mbid_cache` table as `query_musicbrainz` uses it
(including the `recording_json` raw-payload column it reads and writes). -/
structure CacheRow where
  genre : Option String
  year : Option Int
  album_type : Option String
  recording_json : Option String
deriving DecidableEq, Repr

abbrev TracksDB := List (String × TrackRow)
abbrev CacheDB := List (String × CacheRow)

/-- The process-wide diagnostics counters. -/
structure Diagnostics where
  missing_genre : Nat
  missing_year : Nat
  missing_album_type : Nat
deriving DecidableEq, Repr

/-- Schema of `mbid_cache` as written by `create_db` (build_db.py:38-45). -/
def create_db_mbid_cache_columns : List String :=
  ["track_mbid", "genre", "year", "album_type"]

/-- Columns the cache SELECT in `query_musicbrainz` reads (build_db.py:102). -/
def query_musicbrainz_select_columns : List String :=
  ["genre", "year", "album_type", "recording_json"]

/-- Columns the cache INSERT in `query_musicbrainz` writes (build_db.py:206-214). -/
def query_musicbrainz_insert_columns : List String :=
  ["track_mbid", "genre", "year", "album_type", "recording_json"]

/-! ## build_db.py: MusicBrainz payload model -/

/-- A tag with its vote count, as returned by the lookup service.
(`int(tag.get("count", 1))` is modelled as the already-parsed count.) -/
structure MBTag where
  name : String
  count : Int
deriving DecidableEq, Repr

/-- The release-group sub-object of a release. -/
structure MBReleaseGroup where
  tag_list : List MBTag
  primary_type : Option String
deriving DecidableEq, Repr

/-- One release of a recording. `release_event_dates` lists the optional
`date` of each entry of `release-event-list`. -/
structure MBRelease where
  date : Option String
  release_event_dates : List (Option String)
  status : Option String
  release_group : Option MBReleaseGroup
  title : String
deriving DecidableEq, Repr

/-- A parsed recording payload.  `artist_credits` holds, per credited
artist, the tag list obtained by the secondary `get_artist_by_id` call;
`none` models a credit without an `artist` key or a fetch that raised
and was swallowed (build_db.py:142-143). -/
structure MBRecording where
  tag_list : List MBTag
  release_list : List MBRelease
  artist_credits : List (Option (List MBTag))
deriving DecidableEq, Repr

/-- Models `json.dumps(recording)`: an opaque textual serialization.  The
pipeline relies only on the stored payload being non-empty text, which
holds for every `json.dumps` of a dict. -/
def dumpsRecording (rec : MBRecording) : String :=
  String.mk ('(' :: ("recording:" ++ toString rec.tag_list.length ++ ","
      ++ toString rec.release_list.length ++ ")").data)

theorem dumpsRecording_ne_empty (rec : MBRecording) : dumpsRecording rec ≠ "" := by
  intro h
  have hd : (dumpsRecording rec).data = ("" : String).data := by rw [h]
  simp [dumpsRecording] at hd

/-! ## build_db.py: aggregation inside query_musicbrainz -/

/-- `tag_counts[name] = tag_counts.get(name, 0) + count` over an
insertion-ordered dict, modelled as an association list where an update
keeps the key's position and a new key is appended. -/
def bumpCount (counts : List (String × Int)) (name : String) (c : Int) :
    List (String × Int) :=
  match counts with
  | [] => [(name, c)]
  | kv :: rest =>
    if kv.1 = name then (kv.1, kv.2 + c) :: rest
    else kv :: bumpCount rest name c

def addTagCounts (counts : List (String × Int)) (tags : List MBTag) :
    List (String × Int) :=
  tags.foldl (fun acc t => bumpCount acc t.name t.count) counts

/-- Python `max(d, key=d.get)`: the first key attaining the maximal value
in iteration (= insertion) order. -/
def maxKey (l : List (String × Int)) : Option String :=
  (l.foldl (fun acc kv =>
    match acc with
    | none => some kv
    | some best => if kv.2 > best.2 then some kv else some best) none).map (·.1)

/-- Recording-level plus release-group-level tag counts (build_db.py:118-130). -/
def collectTagCounts (rec : MBRecording) : List (String × Int) :=
  let counts := addTagCounts [] rec.tag_list
  rec.release_list.foldl (fun acc rel =>
    match rel.release_group with
    | some rg => addTagCounts acc rg.tag_list
    | none => acc) counts

/-- Artist-tag fallback when no recording/release-group tags were found
(build_db.py:133-143): failed fetches are skipped. -/
def artistFallbackCounts (rec : MBRecording) : List (String × Int) :=
  rec.artist_credits.foldl (fun acc credit =>
    match credit with
    | some tags => addTagCounts acc tags
    | none => acc) []

def aggregateGenre (rec : MBRecording) : Option String :=
  let tag_counts := collectTagCounts rec
  let tag_counts := if tag_counts = [] then artistFallbackCounts rec else tag_counts
  if tag_counts = [] then none else maxKey tag_counts

/-- `date = release.get("date") or first release-event date` with Python
truthiness on the date string (build_db.py:150-152). -/
def effectiveDate (rel : MBRelease) : Option String :=
  if optStrTruthy rel.date then rel.date
  else if rel.release_event_dates ≠ [] then rel.release_event_dates.headD none
  else rel.date

/-- `int(date.split("-")[0])`, failures skipped (build_db.py:154-158);
`split("-")[0]` is the prefix before the first dash. -/
def parseYearToken (d : String) : Option Int :=
  (String.mk (d.toList.takeWhile (· ≠ '-'))).toInt?

def aggregateYear (rec : MBRecording) : Option Int :=
  let years := rec.release_list.filterMap (fun rel =>
    match effectiveDate rel with
    | some d => if d ≠ "" then parseYearToken d else none
    | none => none)
  years.min?

/-- Keyword scan of one release title, in the fixed priority order of
build_db.py:181-194. -/
def strContainsSub (hay needle : String) : Bool :=
  (List.range (hay.toList.length + 1)).any
    (fun i => (hay.toList.drop i).take needle.toList.length == needle.toList)

def lowerStr (s : String) : String := String.mk (s.toList.map Char.toLower)

def titleKeywordType (title : String) : Option String :=
  let t := lowerStr title
  if strContainsSub t "compilation" || strContainsSub t "hits" then some "Compilation"
  else if strContainsSub t "deluxe" then some "Deluxe"
  else if strContainsSub t "soundtrack" then some "Soundtrack"
  else if strContainsSub t "live" then some "Live"
  else none

/-- Album-type waterfall (build_db.py:162-194): primary-type majority,
then status majority, then title keywords. -/
def aggregateAlbumType (rec : MBRecording) : Option String :=
  let type_counts := rec.release_list.foldl (fun acc rel =>
    match rel.release_group with
    | some rg =>
      match rg.primary_type with
      | some pt => if pt ≠ "" then bumpCount acc pt 1 else acc
      | none => acc
    | none => acc) []
  let album_type := if type_counts = [] then none else maxKey type_counts
  let album_type :=
    if optStrTruthy album_type then album_type
    else
      let status_counts := rec.release_list.foldl (fun acc rel =>
        match rel.status with
        | some st => if st ≠ "" then bumpCount acc st 1 else acc
        | none => acc) []
      if status_counts = [] then album_type else maxKey status_counts
  if optStrTruthy album_type then album_type
  else
    match rec.release_list.findSome? (fun rel => titleKeywordType rel.title) with
    | some t => some t
    | none => album_type

/-! ## build_db.py: query_musicbrainz and process_file -/

/-- Result of one `query_musicbrainz` call: the returned triple, the
cache and diagnostics after the call, and whether the remote lookup
service was invoked. -/
structure QueryResult where
  genre : Option String
  year : Option Int
  album_type : Option String
  cache : CacheDB
  diags : Diagnostics
  usedRemote : Bool
deriving Repr

def bumpIf (b : Bool) (n : Nat) : Nat := if b then n + 1 else n

/-- The fresh-lookup branch of `query_musicbrainz` (build_db.py:111-223):
aggregate, bump diagnostics for unresolved fields, upsert the cache row
with the raw payload; any lookup error yields the all-null triple with
no state change. -/
def freshLookup (track_mbid : String) (cache : CacheDB) (diags : Diagnostics)
    (env : String → Except Unit MBRecording) : QueryResult :=
  match env track_mbid with
  | .error _ => ⟨none, none, none, cache, diags, true⟩
  | .ok rec =>
    let genre := aggregateGenre rec
    let year := aggregateYear rec
    let album_type := aggregateAlbumType rec
    let diags' : Diagnostics :=
      ⟨bumpIf (!optStrTruthy genre) diags.missing_genre,
       bumpIf (!optIntTruthy year) diags.missing_year,
       bumpIf (!optStrTruthy album_type) diags.missing_album_type⟩
    let row : CacheRow := ⟨genre, year, album_type, some (dumpsRecording rec)⟩
    ⟨genre, year, album_type, upsertA cache track_mbid row, diags', true⟩

/-- `query_musicbrainz` (build_db.py:96-223): cache-first, with the raw
payload marking a cache row as authoritative. -/
def query_musicbrainz (track_mbid : String) (cache : CacheDB) (diags : Diagnostics)
    (env : String → Except Unit MBRecording) : QueryResult :=
  match lookupA cache track_mbid with
  | some row =>
    if optStrTruthy row.recording_json then
      ⟨row.genre, row.year, row.album_type, cache, diags, false⟩
    else freshLookup track_mbid cache diags env
  | none => freshLookup track_mbid cache diags env

/-- The status-flag classes printed by `process_file`. -/
inductive Outcome where
  | metadataUpdated (updGenre updYear updAlbumType : Bool)
  | noNewMetadata
  | existingComplete
  | newAdded
deriving DecidableEq, Repr

structure ProcResult where
  tracks : TracksDB
  cache : CacheDB
  diags : Diagnostics
  usedRemote : Bool
  outcome : Outcome

/-- `process_file` (build_db.py:243-293).  `tagRead` is the `get_mbids`
result for this file (an external tag-container read). -/
def process_file (tracks : TracksDB) (cache : CacheDB) (diags : Diagnostics)
    (file_path : String)
    (tagRead : Option String × Option String × Option String)
    (env : String → Except Unit MBRecording) : ProcResult :=
  match lookupA tracks file_path with
  | some row =>
    if optStrTruthy row.track_mbid &&
        (!optStrTruthy row.genre || !optIntTruthy row.year ||
         !optStrTruthy row.album_type) then
      let q := query_musicbrainz (row.track_mbid.getD "") cache diags env
      let updG := optStrTruthy q.genre && !optStrTruthy row.genre
      let updY := optIntTruthy q.year && !optIntTruthy row.year
      let updA := optStrTruthy q.album_type && !optStrTruthy row.album_type
      if updG || updY || updA then
        let row' : TrackRow :=
          { row with
            genre := if updG then q.genre else row.genre,
            year := if updY then q.year else row.year,
            album_type := if updA then q.album_type else row.album_type }
        ⟨assocUpdate tracks file_path row', q.cache, q.diags, q.usedRemote,
         .metadataUpdated updG updY updA⟩
      else ⟨tracks, q.cache, q.diags, q.usedRemote, .noNewMetadata⟩
    else ⟨tracks, cache, diags, false, .existingComplete⟩
  | none =>
    let (mbid, artist_mbid, release_group_mbid) := tagRead
    if optStrTruthy mbid then
      let q := query_musicbrainz (mbid.getD "") cache diags env
      ⟨tracks ++ [(file_path,
          ⟨mbid, artist_mbid, release_group_mbid, q.genre, q.year, q.album_type, none⟩)],
       q.cache, q.diags, q.usedRemote, .newAdded⟩
    else
      ⟨tracks ++ [(file_path,
          ⟨mbid, artist_mbid, release_group_mbid, none, none, none, none⟩)],
       cache, diags, false, .newAdded⟩

/-- State threaded through a `walk_and_process` run, with a counter of
remote lookup invocations. -/
structure RunState where
  tracks : TracksDB
  cache : CacheDB
  diags : Diagnostics
  remoteCalls : Nat

/-- `walk_and_process` (build_db.py:295-299) over an explicit file list. -/
def walk_and_process (env : String → Except Unit MBRecording)
    (tagRead : String → Option String × Option String × Option String)
    (files : List String) (st : RunState) : RunState :=
  files.foldl (fun st p =>
    let r := process_file st.tracks st.cache st.diags p (tagRead p) env
    ⟨r.tracks, r.cache, r.diags,
     st.remoteCalls + (if r.usedRemote then 1 else 0)⟩) st

/-- `generate_metadata_string` (build_db.py:225-232). -/
def generate_metadata_string (artist title genre : Option String)
    (year : Option Int) (album_type : Option String) : String :=
  let parts : List String :=
    (if optStrTruthy artist then ["artist: " ++ artist.getD ""] else []) ++
    (if optStrTruthy title then ["title: " ++ title.getD ""] else []) ++
    (if optStrTruthy genre then ["genre: " ++ genre.getD ""] else []) ++
    (if optIntTruthy year then ["year: " ++ toString (year.getD 0)] else []) ++
    (if optStrTruthy album_type then ["album_type: " ++ album_type.getD ""] else [])
  String.intercalate "; " parts

/-! ## nexttrack.py

Conventions for the selection engine:
* embeddings are the already-JSON-parsed vectors, with rational entries;
* the floating-point `cosine_distance(current_emb, emb)` of
  nexttrack.py:16-17 is a parameter `cosDist : List ℚ → ℚ` (the distance
  from the fixed reference embedding), since IEEE-754 arithmetic has no
  exact shallow embedding; the selection logic is proved for every
  distance function;
* `last_played` timestamps are rationals ordered like the ISO-8601
  strings the code stores; `datetime.fromisoformat` plus its swallowed
  parse failure is modelled by storing `Option ℚ` directly (`none` =
  NULL or unparseable, both of which the code treats as never played).
-/

/-- `DISTANCE_THRESHOLD = 0.001` (nexttrack.py:9). -/
def DISTANCE_THRESHOLD : ℚ := mkRat 1 1000

/-- The `1e-6` tie epsilon of nexttrack.py:111. -/
def TIE_EPSILON : ℚ := mkRat 1 1000000

/-- `normalize_string` (nexttrack.py:11-14): lower-case, then keep only
`[a-z0-9]`. -/
def isKeptChar (c : Char) : Bool :=
  ('a' ≤ c && c ≤ 'z') || ('0' ≤ c && c ≤ '9')

def normalize_string (s : String) : String :=
  String.mk ((s.toList.map Char.toLower).filter isKeptChar)

/-- Python `str.split(sep)` for a one-character separator, over char
lists (splits at every occurrence, keeping empty groups). -/
def splitOnSep (sep : Char) : List Char → List (List Char)
  | [] => [[]]
  | c :: rest =>
    let r := splitOnSep sep rest
    if c = sep then [] :: r
    else
      match r with
      | [] => [[c]]
      | g :: gs => (c :: g) :: gs

/-- `file_path.split('/')[-1]`. -/
def basenameOf (p : String) : String :=
  String.mk ((splitOnSep '/' p.toList).getLastD [])

/-- `re.sub(r'\.mp3$', '', name, flags=re.IGNORECASE)` (nexttrack.py:30). -/
def stripMp3Ext (s : String) : String :=
  let l := s.toList
  if l.length ≥ 4 && ((l.drop (l.length - 4)).map Char.toLower == ['.', 'm', 'p', '3'])
  then String.mk (l.take (l.length - 4)) else s

/-- A row of the resolver `tracks` table as nexttrack.py reads it,
embedding already parsed. -/
structure NTrack where
  file_path : String
  embedding : Option (List ℚ)
  track_mbid : Option String
deriving DecidableEq, Repr

/-- A row of the play-history `tracks` table (music_library.db). -/
structure LibRow where
  play_count : Option Int
  last_played : Option ℚ
deriving DecidableEq, Repr

abbrev LibraryDB := List (String × LibRow)

/-- One candidate tuple `(file_path, emb, track_mbid, last_played)`. -/
structure Candidate where
  file_path : String
  emb : List ℚ
  track_mbid : Option String
  last_played : Option ℚ
deriving DecidableEq, Repr

/-- `load_input_track` (nexttrack.py:19-31); `.error` models the
`sys.exit(1)` on a missing row or missing embedding. -/
def load_input_track (rows : List NTrack) (file_path : String) :
    Except String (List ℚ × Option String × String) :=
  match rows.find? (fun t => t.file_path == file_path) with
  | none => .error "Input track not found or missing embedding"
  | some t =>
    match t.embedding with
    | none => .error "Input track not found or missing embedding"
    | some emb => .ok (emb, t.track_mbid, stripMp3Ext (basenameOf file_path))

/-- `load_candidates` (nexttrack.py:52-79). -/
def load_candidates (rows : List NTrack) (lib : LibraryDB)
    (current_path : String) (current_mbid : Option String) (input_title : String) :
    List Candidate :=
  let norm_input_title := normalize_string input_title
  rows.filterMap (fun t =>
    match t.embedding with
    | none => none
    | some emb =>
      if t.file_path = current_path then none
      else if optStrTruthy current_mbid && (t.track_mbid == current_mbid) then none
      else
        let norm_filename := normalize_string (basenameOf t.file_path)
        if strContainsSub norm_filename norm_input_title then none
        else some ⟨t.file_path, emb, t.track_mbid,
          (lookupA lib t.file_path).bind (·.last_played)⟩)

/-- One iteration of the `select_best_match` loop (nexttrack.py:87-121):
the incumbent is `(file_path, dist, last_played_dt)`. -/
def selectStep (cosDist : List ℚ → ℚ) (best : Option (String × ℚ × Option ℚ))
    (c : Candidate) : Option (String × ℚ × Option ℚ) :=
  let dist := cosDist c.emb
  if dist < DISTANCE_THRESHOLD then best
  else
    let last_played_dt := c.last_played
    match best with
    | none => some (c.file_path, dist, last_played_dt)
    | some (bfp, bdist, blp) =>
      if dist < bdist then some (c.file_path, dist, last_played_dt)
      else if |dist - bdist| < TIE_EPSILON then
        match blp, last_played_dt with
        | some b, some l =>
          if l < b then some (c.file_path, dist, last_played_dt)
          else some (bfp, bdist, blp)
        | none, some _ => some (bfp, bdist, blp)
        | some _, none => some (c.file_path, dist, last_played_dt)
        | none, none => some (bfp, bdist, blp)
      else some (bfp, bdist, blp)

/-- `select_best_match` (nexttrack.py:82-123). -/
def select_best_match (cosDist : List ℚ → ℚ) (candidates : List Candidate) :
    Option (String × ℚ × Option ℚ) :=
  candidates.foldl (selectStep cosDist) none

/-- `update_play_info` (nexttrack.py:33-50): update only when a row for
the path already exists. -/
def update_play_info (lib : LibraryDB) (now : ℚ) (file_path : String) : LibraryDB :=
  match lookupA lib file_path with
  | none => lib
  | some row => assocUpdate lib file_path ⟨some (row.play_count.getD 0 + 1), some now⟩

/-- `main` of nexttrack.py (lines 125-150) after connecting: returns the
winning path (if any), the report line, and the play-history store after
the optional update.  The success report line is abbreviated to the
winning path, as its float formatting is not modelled. -/
def nexttrack_main (cosDist : List ℚ → List ℚ → ℚ) (now : ℚ)
    (rows : List NTrack) (lib : LibraryDB) (current_path : String) :
    Except String (Option String × String × LibraryDB) :=
  match load_input_track rows current_path with
  | .error e => .error e
  | .ok (current_emb, current_mbid, current_title) =>
    let candidates := load_candidates rows lib current_path current_mbid current_title
    match select_best_match (cosDist current_emb) candidates with
    | some (best_file, _, _) =>
      .ok (some best_file, best_file, update_play_info lib now best_file)
    | none => .ok (none, "No suitable match found.", lib)

/-! ## Association-list store lemmas -/

theorem lookupA_assocUpdate_self {α : Type} (l : List (String × α)) (k : String)
    (v w : α) (h : lookupA l k = some w) :
    lookupA (assocUpdate l k v) k = some v := by
  induction l with
  | nil => simp [lookupA] at h
  | cons kv rest ih =>
    by_cases hk : kv.1 = k
    · simp [lookupA, assocUpdate, hk]
    · simp only [lookupA, if_neg hk] at h
      simp [lookupA, assocUpdate, hk]
      simpa [assocUpdate] using ih h

theorem lookupA_assocUpdate_ne {α : Type} (l : List (String × α)) (k k' : String)
    (v : α) (h : k' ≠ k) :
    lookupA (assocUpdate l k v) k' = lookupA l k' := by
  induction l with
  | nil => rfl
  | cons kv rest ih =>
    by_cases hk : kv.1 = k
    · simp only [assocUpdate, List.map_cons, if_pos hk, lookupA]
      rw [if_neg (Ne.symm h), if_neg (hk ▸ Ne.symm h : ¬ kv.1 = k')]
      simpa [assocUpdate] using ih
    · simp only [assocUpdate, List.map_cons, if_neg hk, lookupA]
      by_cases hk' : kv.1 = k'
      · simp [hk']
      · simp only [if_neg hk']
        simpa [assocUpdate] using ih

theorem lookupA_append_self {α : Type} (l : List (String × α)) (k : String) (v : α)
    (h : lookupA l k = none) :
    lookupA (l ++ [(k, v)]) k = some v := by
  induction l with
  | nil => simp [lookupA]
  | cons kv rest ih =>
    simp only [lookupA] at h
    by_cases hk : kv.1 = k
    · simp [hk] at h
    · simp only [if_neg hk] at h
      simp only [List.cons_append, lookupA, if_neg hk]
      exact ih h

theorem lookupA_append_ne {α : Type} (l : List (String × α)) (k k' : String) (v : α)
    (h : k' ≠ k) :
    lookupA (l ++ [(k, v)]) k' = lookupA l k' := by
  induction l with
  | nil => simp [lookupA, Ne.symm h]
  | cons kv rest ih =>
    simp only [lookupA, List.cons_append]
    by_cases hk : kv.1 = k'
    · simp [hk]
    · simp only [if_neg hk]
      exact ih

theorem lookupA_upsertA_self {α : Type} (l : List (String × α)) (k : String) (v : α) :
    lookupA (upsertA l k v) k = some v := by
  unfold upsertA
  cases h : lookupA l k with
  | none => simp only [h, Option.isSome_none, Bool.false_eq_true, if_false]
            exact lookupA_append_self l k v h
  | some w => simp only [h, Option.isSome_some, if_true]
              exact lookupA_assocUpdate_self l k v w h

theorem lookupA_upsertA_ne {α : Type} (l : List (String × α)) (k k' : String) (v : α)
    (h : k' ≠ k) :
    lookupA (upsertA l k v) k' = lookupA l k' := by
  unfold upsertA
  cases hl : (lookupA l k).isSome with
  | false => simp only [Bool.false_eq_true, if_false]
             exact lookupA_append_ne l k k' v h
  | true => simp only [if_true]
            exact lookupA_assocUpdate_ne l k k' v h

/-! ## query_musicbrainz helper lemmas -/

/-- Cache-hit path: an authoritative entry (raw payload present) is
returned as-is, with no remote call and no state change. -/
theorem query_cache_hit (track_mbid : String) (cache : CacheDB) (diags : Diagnostics)
    (env : String → Except Unit MBRecording) (row : CacheRow)
    (hrow : lookupA cache track_mbid = some row)
    (hpayload : optStrTruthy row.recording_json = true) :
    query_musicbrainz track_mbid cache diags env =
      ⟨row.genre, row.year, row.album_type, cache, diags, false⟩ := by
  unfold query_musicbrainz
  rw [hrow]
  simp [hpayload]

/-- A cache entry for `m` is authoritative when its raw payload is
non-empty text. -/
def cacheAuthoritative (cache : CacheDB) (m : String) : Prop :=
  ∃ r, lookupA cache m = some r ∧ optStrTruthy r.recording_json = true

instance (cache : CacheDB) (m : String) : Decidable (cacheAuthoritative cache m) := by
  unfold cacheAuthoritative
  cases lookupA cache m with
  | none => exact .isFalse (by simp)
  | some r => exact decidable_of_iff (optStrTruthy r.recording_json = true) (by simp)

/-- Lookup-error path: when the cache is not authoritative for the id
and the remote lookup fails, the result is the all-null triple and the
cache and diagnostics are untouched. -/
theorem query_lookup_error (track_mbid : String) (cache : CacheDB) (diags : Diagnostics)
    (env : String → Except Unit MBRecording)
    (hmiss : ¬ cacheAuthoritative cache track_mbid)
    (herr : env track_mbid = .error ()) :
    query_musicbrainz track_mbid cache diags env =
      ⟨none, none, none, cache, diags, true⟩ := by
  have hfresh : freshLookup track_mbid cache diags env = ⟨none, none, none, cache, diags, true⟩ := by
    unfold freshLookup
    rw [herr]
  unfold query_musicbrainz
  cases hrow : lookupA cache track_mbid with
  | none => exact hfresh
  | some row =>
    have hp : optStrTruthy row.recording_json = false := by
      cases hpt : optStrTruthy row.recording_json with
      | false => rfl
      | true => exact absurd ⟨row, hrow, hpt⟩ hmiss
    simpa [hp] using hfresh

/-! ## Claim C2 -/

/-- C2: for every recording identifier whose cache entry contains a raw
lookup payload (non-empty `recording_json`), `query_musicbrainz` returns
that entry's cached `(genre, year, album_type)` with the cache and the
diagnostics untouched and without invoking the remote lookup service —
in particular even when all three cached fields are null, since the
cached row is arbitrary here. -/
theorem claim_C2 (track_mbid : String) (cache : CacheDB) (diags : Diagnostics)
    (env : String → Except Unit MBRecording) (row : CacheRow)
    (hrow : lookupA cache track_mbid = some row)
    (hpayload : optStrTruthy row.recording_json = true) :
    query_musicbrainz track_mbid cache diags env =
      ⟨row.genre, row.year, row.album_type, cache, diags, false⟩ :=
  query_cache_hit track_mbid cache diags env row hrow hpayload

/-- Witness for C2 at a concrete cache whose entry has a raw payload but
all three aggregated fields null: the cached nulls are returned and the
remote service (which would fail here) is not invoked. -/
theorem claim_C2_witness :
    query_musicbrainz "m" [("m", ⟨none, none, none, some "x"⟩)] ⟨0, 0, 0⟩
        (fun _ => .error ()) =
      ⟨none, none, none, [("m", ⟨none, none, none, some "x"⟩)], ⟨0, 0, 0⟩, false⟩ :=
  claim_C2 "m" [("m", ⟨none, none, none, some "x"⟩)] ⟨0, 0, 0⟩ (fun _ => .error ())
    ⟨none, none, none, some "x"⟩ rfl rfl

/-! ## Claim C4 -/

/-- C4: whenever `query_musicbrainz` actually consults the remote lookup
service (its cache entry is not authoritative) and the lookup errors
(network failure, malformed response, unknown identifier — all modelled
by `Except.error`), the error is caught and surfaced as the all-null
triple `(none, none, none)` with cache and diagnostics untouched; the
function is total, so no exception escapes to abort processing of
subsequent files. -/
theorem claim_C4 (track_mbid : String) (cache : CacheDB) (diags : Diagnostics)
    (env : String → Except Unit MBRecording)
    (hmiss : ¬ cacheAuthoritative cache track_mbid)
    (herr : env track_mbid = .error ()) :
    query_musicbrainz track_mbid cache diags env =
      ⟨none, none, none, cache, diags, true⟩ :=
  query_lookup_error track_mbid cache diags env hmiss herr

/-- Witness for C4 at an empty cache and an always-failing lookup
service. -/
theorem claim_C4_witness :
    query_musicbrainz "m" [] ⟨0, 0, 0⟩ (fun _ => .error ()) =
      ⟨none, none, none, [], ⟨0, 0, 0⟩, true⟩ :=
  claim_C4 "m" [] ⟨0, 0, 0⟩ (fun _ => .error ()) (by decide) rfl

/-! ## Claim C9 -/

/-- C9: the schema produced by `create_db` does NOT contain every column
`query_musicbrainz` reads and writes — the raw-payload column
`recording_json` appears in the cache SELECT (build_db.py:102) and in
the cache INSERT (build_db.py:206-214) but not in the `mbid_cache`
schema of `create_db` (build_db.py:38-45), so on a freshly created
store the cache SELECT, which sits outside the `try` block, raises
instead of succeeding. -/
theorem claim_C9 :
    "recording_json" ∈ query_musicbrainz_select_columns ∧
    "recording_json" ∈ query_musicbrainz_insert_columns ∧
    "recording_json" ∉ create_db_mbid_cache_columns := by
  decide

/-! ## Claim C1 -/

/-- C1: `process_file` never persists any embedding: the record it
leaves for the processed path carries exactly the embedding the store
already had for that path (`none` for a newly inserted record), for
every store, cache, tag-read result and lookup outcome.  Neither
`generate_metadata_string` nor the embedding function is ever invoked
by the enrichment pipeline. -/
theorem claim_C1 (tracks : TracksDB) (cache : CacheDB) (diags : Diagnostics)
    (file_path : String) (tagRead : Option String × Option String × Option String)
    (env : String → Except Unit MBRecording) :
    (lookupA (process_file tracks cache diags file_path tagRead env).tracks
        file_path).map (·.embedding) =
      some ((lookupA tracks file_path).bind (·.embedding)) := by
  cases hrow : lookupA tracks file_path with
  | some row =>
    unfold process_file
    rw [hrow]
    dsimp only
    split
    · split
      · rw [lookupA_assocUpdate_self tracks file_path _ row hrow]
        rfl
      · rw [hrow]
        rfl
    · rw [hrow]
      rfl
  | none =>
    unfold process_file
    rw [hrow]
    dsimp only
    split
    · rw [lookupA_append_self tracks file_path _ hrow]
      rfl
    · rw [lookupA_append_self tracks file_path _ hrow]
      rfl

/-! ## Claim C10 -/

/-- Lowercasing a non-alphanumeric character cannot produce a character
kept by `normalize_string`: `Char.toLower` moves only `A`-`Z`. -/
theorem isKept_toLower_eq_false (c : Char) (h : c.isAlphanum = false) :
    isKeptChar (Char.toLower c) = false := by
  unfold Char.isAlphanum Char.isAlpha Char.isUpper Char.isLower Char.isDigit at h
  simp only [Bool.or_eq_false_iff, Bool.and_eq_false_iff, decide_eq_false_iff_not,
    ge_iff_le, UInt32.le_def, BitVec.le_def] at h
  unfold Char.toLower
  dsimp only
  by_cases hc : Char.toNat c ≥ 65 ∧ Char.toNat c ≤ 90
  · exfalso
    have hnat : Char.toNat c = c.val.toBitVec.toNat := rfl
    rw [hnat] at hc
    rcases h with ⟨⟨h1, _⟩, _⟩
    have e1 : (UInt32.toBitVec 65).toNat = 65 := rfl
    have e2 : (UInt32.toBitVec 90).toNat = 90 := rfl
    rw [e1, e2] at h1
    rcases h1 with h1 | h1 <;> omega
  · rw [if_neg hc]
    unfold isKeptChar
    simp only [Bool.or_eq_false_iff, Bool.and_eq_false_iff, decide_eq_false_iff_not,
      Char.le_def, UInt32.le_def, BitVec.le_def]
    rcases h with ⟨⟨_, h2⟩, h3⟩
    have e97 : (UInt32.toBitVec 97).toNat = 97 := rfl
    have e122 : (UInt32.toBitVec 122).toNat = 122 := rfl
    have e48 : (UInt32.toBitVec 48).toNat = 48 := rfl
    have e57 : (UInt32.toBitVec 57).toNat = 57 := rfl
    rw [e97, e122] at h2
    rw [e48, e57] at h3
    have ea : ('a'.val.toBitVec).toNat = 97 := rfl
    have ez : ('z'.val.toBitVec).toNat = 122 := rfl
    have e0 : ('0'.val.toBitVec).toNat = 48 := rfl
    have e9 : ('9'.val.toBitVec).toNat = 57 := rfl
    rw [ea, ez, e0, e9]
    exact ⟨h2, h3⟩

/-- A string with no alphanumeric character normalizes to the empty
string. -/
theorem normalize_string_eq_empty (s : String)
    (h : ∀ c ∈ s.toList, c.isAlphanum = false) : normalize_string s = "" := by
  unfold normalize_string
  have hf : (s.toList.map Char.toLower).filter isKeptChar = [] := by
    rw [List.filter_eq_nil_iff]
    intro a ha
    rcases List.mem_map.mp ha with ⟨c, hc, rfl⟩
    simp [isKept_toLower_eq_false c (h c hc)]
  rw [hf]

/-- The empty needle is a substring of every haystack (Python `'' in s`). -/
theorem strContainsSub_empty (s : String) : strContainsSub s "" = true := by
  unfold strContainsSub
  refine List.any_eq_true.mpr ⟨0, List.mem_range.mpr (Nat.succ_pos _), ?_⟩
  rfl

/-- With an empty normalized reference title, the title-substring
heuristic excludes every candidate. -/
theorem load_candidates_nil (rows : List NTrack) (lib : LibraryDB)
    (current_path : String) (current_mbid : Option String) (input_title : String)
    (h : normalize_string input_title = "") :
    load_candidates rows lib current_path current_mbid input_title = [] := by
  unfold load_candidates
  rw [h]
  refine List.filterMap_eq_nil_iff.mpr (fun t ht => ?_)
  cases he : t.embedding with
  | none => simp only [he]
  | some emb =>
    simp only [he]
    by_cases hp : t.file_path = current_path
    · simp [hp]
    · simp only [if_neg hp]
      by_cases hm : (optStrTruthy current_mbid && (t.track_mbid == current_mbid)) = true
      · simp [hm]
      · simp only [Bool.not_eq_true] at hm
        simp [hm, strContainsSub_empty]

/-- C10: when the reference filename, after removing the `.mp3`
extension, contains no alphanumeric character, the normalized title is
the empty string, and since the empty string is a substring of every
normalized candidate filename, every candidate is excluded: the run
reports "No suitable match found." and leaves the play-history store
unchanged. -/
theorem claim_C10 (cosDist : List ℚ → List ℚ → ℚ) (now : ℚ) (rows : List NTrack)
    (lib : LibraryDB) (current_path : String) (t : NTrack) (emb : List ℚ)
    (ht : rows.find? (fun r => r.file_path == current_path) = some t)
    (he : t.embedding = some emb)
    (halnum : ∀ c ∈ (stripMp3Ext (basenameOf current_path)).toList,
      c.isAlphanum = false) :
    normalize_string (stripMp3Ext (basenameOf current_path)) = "" ∧
    nexttrack_main cosDist now rows lib current_path =
      .ok (none, "No suitable match found.", lib) := by
  have hn := normalize_string_eq_empty _ halnum
  refine ⟨hn, ?_⟩
  unfold nexttrack_main load_input_track
  rw [ht]
  dsimp only
  rw [he]
  dsimp only
  rw [load_candidates_nil rows lib current_path t.track_mbid _ hn]
  rfl

/-- Witness for C10: a reference `x/!!!.mp3` whose stripped title `!!!`
has no alphanumerics, with a perfectly good candidate in the store that
is nonetheless excluded, and a play-history row that stays untouched. -/
theorem claim_C10_witness :
    normalize_string (stripMp3Ext (basenameOf "x/!!!.mp3")) = "" ∧
    nexttrack_main (fun _ _ => mkRat 1 100) 0
      [⟨"x/!!!.mp3", some [0], none⟩, ⟨"b/c.mp3", some [1], none⟩]
      [("b/c.mp3", ⟨some 3, some 2⟩)] "x/!!!.mp3" =
      .ok (none, "No suitable match found.", [("b/c.mp3", ⟨some 3, some 2⟩)]) :=
  claim_C10 (fun _ _ => mkRat 1 100) 0
    [⟨"x/!!!.mp3", some [0], none⟩, ⟨"b/c.mp3", some [1], none⟩]
    [("b/c.mp3", ⟨some 3, some 2⟩)] "x/!!!.mp3"
    ⟨"x/!!!.mp3", some [0], none⟩ [0] rfl rfl (by decide)

/-! ## Claim C8 -/

/-- C8: the selection run mutates the play-history store only when a
winner was selected and a play-history row for the winner's path already
exists — in which case that row becomes `(play_count + 1, now)` — and
when no winner survives it reports "No suitable match found." and leaves
the play-history store unchanged. -/
theorem claim_C8 (cosDist : List ℚ → List ℚ → ℚ) (now : ℚ) (rows : List NTrack)
    (lib : LibraryDB) (current_path : String) (winner : Option String)
    (msg : String) (lib' : LibraryDB)
    (h : nexttrack_main cosDist now rows lib current_path = .ok (winner, msg, lib')) :
    (winner = none → msg = "No suitable match found." ∧ lib' = lib) ∧
    (∀ best_file, winner = some best_file →
      (lookupA lib best_file = none → lib' = lib) ∧
      (∀ row, lookupA lib best_file = some row →
        lib' = assocUpdate lib best_file
          ⟨some (row.play_count.getD 0 + 1), some now⟩)) := by
  unfold nexttrack_main at h
  cases hload : load_input_track rows current_path with
  | error e => rw [hload] at h; exact absurd h (by simp)
  | ok v =>
    obtain ⟨current_emb, current_mbid, current_title⟩ := v
    rw [hload] at h
    dsimp only at h
    cases hsel : select_best_match (cosDist current_emb)
        (load_candidates rows lib current_path current_mbid current_title) with
    | none =>
      rw [hsel] at h
      injection h with h
      injection h with h1 h2
      injection h2 with h2 h3
      constructor
      · exact fun _ => ⟨h2.symm, h3.symm⟩
      · intro bf hbf
        rw [← h1] at hbf
        exact absurd hbf (by simp)
    | some b =>
      obtain ⟨best_file, best_score, best_lp⟩ := b
      rw [hsel] at h
      injection h with h
      injection h with h1 h2
      injection h2 with h2 h3
      constructor
      · intro hwn
        rw [← h1] at hwn
        exact absurd hwn (by simp)
      · intro bf hbf
        rw [← h1] at hbf
        injection hbf with hbf
        subst hbf
        constructor
        · intro hnone
          rw [← h3]
          unfold update_play_info
          rw [hnone]
        · intro row hrow
          rw [← h3]
          unfold update_play_info
          rw [hrow]

/-- Witness for C8: a selected winner whose play-history row exists gets
`play_count` incremented and `last_played` set to now. -/
theorem claim_C8_witness :
    ((some "b/c.mp3" : Option String) = none →
      ("b/c.mp3" : String) = "No suitable match found." ∧
      [("b/c.mp3", (⟨some 4, some 42⟩ : LibRow))] = [("b/c.mp3", ⟨some 3, some 2⟩)]) ∧
    (∀ best_file, (some "b/c.mp3" : Option String) = some best_file →
      (lookupA [("b/c.mp3", (⟨some 3, some 2⟩ : LibRow))] best_file = none →
        [("b/c.mp3", (⟨some 4, some 42⟩ : LibRow))] = [("b/c.mp3", ⟨some 3, some 2⟩)]) ∧
      (∀ row, lookupA [("b/c.mp3", (⟨some 3, some 2⟩ : LibRow))] best_file = some row →
        [("b/c.mp3", (⟨some 4, some 42⟩ : LibRow))] =
          assocUpdate [("b/c.mp3", ⟨some 3, some 2⟩)] best_file
            ⟨some (row.play_count.getD 0 + 1), some 42⟩)) :=
  claim_C8 (fun _ _ => mkRat 1 100) 42
    [⟨"x/ref.mp3", some [0], none⟩, ⟨"b/c.mp3", some [1], none⟩]
    [("b/c.mp3", ⟨some 3, some 2⟩)] "x/ref.mp3"
    (some "b/c.mp3") "b/c.mp3" [("b/c.mp3", ⟨some 4, some 42⟩)] rfl

/-! ## Claim C7 -/

/-- Distance function for the C7 counterexample: the reference is at
distance `0.002 + 5e-7` from embedding `[1]` and `0.002` from every
other embedding, so the two distances differ by less than the `1e-6`
tie epsilon while both exceed the near-duplicate threshold. -/
def c7_dist : List ℚ → ℚ :=
  fun e => if e == [(1 : ℚ)] then mkRat 4001 2000000 else mkRat 2 1000

/-- C7 counterexample: two surviving candidates within the tie epsilon
of each other — `A` never played, `B` last played at time 5.  In
examination order `[A, B]` the strict `dist < best_dist` branch fires
before the epsilon tie-break, so the recently played `B` is selected
over the never-played `A`; the reverse order selects `A`.  The claim
that the selection is order-independent and recency-determined is
false. -/
theorem claim_C7_counterexample :
    (¬ c7_dist [1] < DISTANCE_THRESHOLD) ∧ (¬ c7_dist [2] < DISTANCE_THRESHOLD) ∧
    |c7_dist [1] - c7_dist [2]| < TIE_EPSILON ∧
    select_best_match c7_dist [⟨"A", [1], none, none⟩, ⟨"B", [2], none, some 5⟩] =
      some ("B", mkRat 2 1000, some 5) ∧
    select_best_match c7_dist [⟨"B", [2], none, some 5⟩, ⟨"A", [1], none, none⟩] =
      some ("A", mkRat 4001 2000000, none) := by
  have habs : |(1 : ℚ)/2000000| = 1/2000000 := abs_of_pos (by norm_num)
  refine ⟨by decide, by decide, ?_, ?_, ?_⟩ <;>
    norm_num [select_best_match, selectStep, List.foldl, c7_dist,
      DISTANCE_THRESHOLD, TIE_EPSILON, mkRat, habs]

/-- C7 amended: when the two surviving candidates' distances are exactly
equal (not merely within the epsilon — a strictly smaller distance still
wins even inside the epsilon, which is what makes the original claim
order-dependent), the selection is order-independent and determined by
recency: an absent last-played timestamp beats any present one, and an
older timestamp beats a more recent one. -/
theorem claim_C7_amended (d : List ℚ → ℚ) (fa fb : String) (ea eb : List ℚ)
    (ma mb : Option String) (la lb : Option ℚ)
    (h1 : ¬ d ea < DISTANCE_THRESHOLD) (h2 : ¬ d eb < DISTANCE_THRESHOLD)
    (heq : d ea = d eb)
    (hrec : (la = none ∧ ∃ t, lb = some t) ∨
      ∃ s t, la = some s ∧ lb = some t ∧ s < t) :
    select_best_match d [⟨fa, ea, ma, la⟩, ⟨fb, eb, mb, lb⟩] = some (fa, d ea, la) ∧
    select_best_match d [⟨fb, eb, mb, lb⟩, ⟨fa, ea, ma, la⟩] = some (fa, d ea, la) := by
  have hba : ¬ d eb < d ea := by rw [heq]; exact lt_irrefl _
  have hab : ¬ d ea < d eb := by rw [heq]; exact lt_irrefl _
  have habs1 : |d eb - d ea| < TIE_EPSILON := by
    rw [heq, sub_self]
    decide
  have habs2 : |d ea - d eb| < TIE_EPSILON := by
    rw [heq, sub_self]
    decide
  rcases hrec with ⟨hla, t, hlb⟩ | ⟨s, t, hla, hlb, hst⟩ <;> subst hla <;> subst hlb
  · constructor
    · simp only [select_best_match, selectStep, List.foldl]
      rw [if_neg h1]
      dsimp only
      rw [if_neg h2, if_neg hba, if_pos habs1]
    · simp only [select_best_match, selectStep, List.foldl]
      rw [if_neg h2]
      dsimp only
      rw [if_neg h1, if_neg hab, if_pos habs2, heq]
  · constructor
    · simp only [select_best_match, selectStep, List.foldl]
      rw [if_neg h1]
      dsimp only
      rw [if_neg h2, if_neg hba, if_pos habs1]
      rw [if_neg (lt_asymm hst)]
    · simp only [select_best_match, selectStep, List.foldl]
      rw [if_neg h2]
      dsimp only
      rw [if_neg h1, if_neg hab, if_pos habs2]
      rw [if_pos hst, heq]

/-- Witness for C7 amended: equal distances, `A` never played, `B`
played at time 5 — `A` is selected in both examination orders. -/
theorem claim_C7_amended_witness :
    select_best_match (fun _ => mkRat 2 1000)
      [⟨"A", [1], none, none⟩, ⟨"B", [2], none, some 5⟩] =
      some ("A", mkRat 2 1000, none) ∧
    select_best_match (fun _ => mkRat 2 1000)
      [⟨"B", [2], none, some 5⟩, ⟨"A", [1], none, none⟩] =
      some ("A", mkRat 2 1000, none) :=
  claim_C7_amended (fun _ => mkRat 2 1000) "A" "B" [1] [2] none none none (some 5)
    (by decide) (by decide) rfl (Or.inl ⟨rfl, 5, rfl⟩)

/-! ## Claim C6 -/

/-- Each loop iteration of `select_best_match` either keeps the
incumbent or moves to the candidate just examined. -/
theorem selectStep_cases (d : List ℚ → ℚ) (acc : Option (String × ℚ × Option ℚ))
    (c : Candidate) :
    selectStep d acc c = acc ∨
    selectStep d acc c = some (c.file_path, d c.emb, c.last_played) := by
  unfold selectStep
  dsimp only
  by_cases h1 : d c.emb < DISTANCE_THRESHOLD
  · rw [if_pos h1]
    exact Or.inl rfl
  · rw [if_neg h1]
    rcases acc with _ | ⟨bfp, bdist, blp⟩
    · exact Or.inr rfl
    · dsimp only
      by_cases h2 : d c.emb < bdist
      · rw [if_pos h2]
        exact Or.inr rfl
      · rw [if_neg h2]
        by_cases h3 : |d c.emb - bdist| < TIE_EPSILON
        · rw [if_pos h3]
          rcases blp with _ | b
          · cases hlp : c.last_played with
            | none => exact Or.inl rfl
            | some l => exact Or.inl rfl
          · cases hlp : c.last_played with
            | none => exact Or.inr rfl
            | some l =>
              dsimp only
              by_cases h4 : l < b
              · rw [if_pos h4]
                exact Or.inr rfl
              · rw [if_neg h4]
                exact Or.inl rfl
        · rw [if_neg h3]
          exact Or.inl rfl

/-- A winner produced by folding `selectStep` is the initial incumbent
or one of the folded candidates. -/
theorem select_foldl_mem (d : List ℚ → ℚ) (cs : List Candidate) :
    ∀ (acc : Option (String × ℚ × Option ℚ)) (b : String × ℚ × Option ℚ),
      cs.foldl (selectStep d) acc = some b →
      acc = some b ∨ ∃ c ∈ cs, b.1 = c.file_path := by
  induction cs with
  | nil => exact fun acc b h => Or.inl h
  | cons c rest ih =>
    intro acc b h
    simp only [List.foldl] at h
    rcases ih _ _ h with hacc | ⟨c', hc', hb⟩
    · rcases selectStep_cases d acc c with he | he
      · rw [he] at hacc
        exact Or.inl hacc
      · rw [he] at hacc
        injection hacc with hacc
        exact Or.inr ⟨c, List.mem_cons_self c rest, by rw [← hacc]⟩
    · exact Or.inr ⟨c', List.mem_cons_of_mem c hc', hb⟩

/-- `select_best_match` only ever returns one of its candidates. -/
theorem select_best_match_mem (d : List ℚ → ℚ) (cs : List Candidate)
    (b : String × ℚ × Option ℚ) (h : select_best_match d cs = some b) :
    ∃ c ∈ cs, b.1 = c.file_path := by
  rcases select_foldl_mem d cs none b h with h0 | hm
  · exact absurd h0 (by simp)
  · exact hm

/-- Every candidate surviving `load_candidates` is distinct from the
reference path, does not share a truthy reference recording id, and
escapes the title-substring heuristic. -/
theorem load_candidates_exclusions (rows : List NTrack) (lib : LibraryDB)
    (current_path : String) (current_mbid : Option String) (input_title : String) :
    ∀ c ∈ load_candidates rows lib current_path current_mbid input_title,
      c.file_path ≠ current_path ∧
      (optStrTruthy current_mbid = true → ¬ c.track_mbid = current_mbid) ∧
      strContainsSub (normalize_string (basenameOf c.file_path))
        (normalize_string input_title) = false := by
  intro c hc
  unfold load_candidates at hc
  rcases List.mem_filterMap.mp hc with ⟨t, ht, hft⟩
  cases he : t.embedding with
  | none => rw [he] at hft; exact absurd hft (by simp)
  | some emb =>
    rw [he] at hft
    dsimp only at hft
    by_cases hp : t.file_path = current_path
    · rw [if_pos hp] at hft
      exact absurd hft (by simp)
    · rw [if_neg hp] at hft
      by_cases hm : (optStrTruthy current_mbid && (t.track_mbid == current_mbid)) = true
      · rw [if_pos hm] at hft
        exact absurd hft (by simp)
      · rw [if_neg hm] at hft
        by_cases hs : strContainsSub (normalize_string (basenameOf t.file_path))
            (normalize_string input_title) = true
        · rw [if_pos hs] at hft
          exact absurd hft (by simp)
        · rw [if_neg hs] at hft
          injection hft with hft
          subst hft
          refine ⟨hp, ?_, ?_⟩
          · intro hcm hmb
            apply hm
            dsimp only at hmb
            rw [hcm, hmb]
            simp
          · dsimp only
            exact Bool.not_eq_true _ ▸ hs

/-- C6 amended: the winner of a selection run over the candidate pool is
never the reference file itself, never shares the reference's truthy
(non-null, non-empty) recording identifier, and never has a normalized
filename containing the reference's normalized title.  (The original
claim's "non-null" must be weakened to "truthy": the empty-string
identifier is non-null but falsy in Python, and is not excluded.) -/
theorem claim_C6_amended (d : List ℚ → ℚ) (rows : List NTrack) (lib : LibraryDB)
    (current_path : String) (current_mbid : Option String) (input_title : String)
    (b : String × ℚ × Option ℚ)
    (h : select_best_match d
      (load_candidates rows lib current_path current_mbid input_title) = some b) :
    b.1 ≠ current_path ∧
    ∃ c ∈ load_candidates rows lib current_path current_mbid input_title,
      b.1 = c.file_path ∧
      (optStrTruthy current_mbid = true → ¬ c.track_mbid = current_mbid) ∧
      strContainsSub (normalize_string (basenameOf c.file_path))
        (normalize_string input_title) = false := by
  rcases select_best_match_mem d _ b h with ⟨c, hc, hb⟩
  have hex := load_candidates_exclusions rows lib current_path current_mbid
    input_title c hc
  exact ⟨hb ▸ hex.1, c, hc, hb, hex.2.1, hex.2.2⟩

/-- The store for the C6 counterexample: the reference and one candidate
share the empty-string recording identifier — which is non-null. -/
def c6_rows : List NTrack :=
  [⟨"a/r.mp3", some [0], some ""⟩, ⟨"b/c.mp3", some [1], some ""⟩]

/-- C6 counterexample: both rows carry the non-null recording identifier
`some ""`, yet the selection returns the candidate sharing the
reference's identifier, because `if current_mbid:` treats the non-null
empty string as absent and skips the duplicate-identifier exclusion. -/
theorem claim_C6_counterexample :
    (∀ t ∈ c6_rows, t.track_mbid = some "") ∧
    (some "" : Option String) ≠ none ∧
    nexttrack_main (fun _ _ => mkRat 1 100) 0 c6_rows [] "a/r.mp3" =
      .ok (some "b/c.mp3", "b/c.mp3", []) := by
  refine ⟨by decide, by simp, rfl⟩

/-- Witness for C6 amended at a concrete two-track store: the winner is
the surviving candidate, not the reference. -/
theorem claim_C6_amended_witness :
    ("b/c.mp3", mkRat 1 100, (none : Option ℚ)).1 ≠ "x/ref.mp3" ∧
    ∃ c ∈ load_candidates
        [⟨"x/ref.mp3", some [0], none⟩, ⟨"b/c.mp3", some [1], none⟩] []
        "x/ref.mp3" none "ref",
      ("b/c.mp3", mkRat 1 100, (none : Option ℚ)).1 = c.file_path ∧
      (optStrTruthy none = true → ¬ c.track_mbid = none) ∧
      strContainsSub (normalize_string (basenameOf c.file_path))
        (normalize_string "ref") = false :=
  claim_C6_amended (fun _ => mkRat 1 100)
    [⟨"x/ref.mp3", some [0], none⟩, ⟨"b/c.mp3", some [1], none⟩] []
    "x/ref.mp3" none "ref" ("b/c.mp3", mkRat 1 100, none) rfl

/-! ## Claim C3 -/

/-- The existing track row of the C3 counterexample: its genre is the
non-null empty string (falsy in Python), its other fields populated. -/
def c3_row : TrackRow :=
  ⟨some "m", none, none, some "", some 1999, some "Album", none⟩

/-- The authoritative cache entry feeding the C3 counterexample. -/
def c3_cache : CacheDB := [("m", ⟨some "Rock", none, none, some "j"⟩)]

/-- C3 counterexample: a record whose genre is the non-null value
`some ""` gets that value replaced by `some "Rock"` — a value→value
transition on a non-null field, because `if not genre:` treats the
non-null empty string as missing.  The claim that a non-null field is
always kept is false. -/
theorem claim_C3_counterexample :
    c3_row.genre = some "" ∧ (some "" : Option String) ≠ none ∧
    (lookupA (process_file [("f", c3_row)] c3_cache ⟨0, 0, 0⟩ "f"
        (none, none, none) (fun _ => .error ())).tracks "f").map (·.genre) =
      some (some "Rock") := by
  refine ⟨rfl, by simp, ?_⟩
  rfl

/-- C3 amended: `process_file` never replaces a truthy (non-null and
non-empty / non-zero) field of an existing record; each field either
keeps its current value or transitions from falsy (null, `""`, or year
`0`) to a truthy value; and the record is written back only if at least
one field changed (an unchanged row leaves the store untouched). -/
theorem claim_C3_amended (tracks : TracksDB) (cache : CacheDB) (diags : Diagnostics)
    (file_path : String)
    (tagRead : Option String × Option String × Option String)
    (env : String → Except Unit MBRecording) (row : TrackRow)
    (hrow : lookupA tracks file_path = some row) :
    ∃ row', lookupA (process_file tracks cache diags file_path tagRead env).tracks
        file_path = some row' ∧
      (optStrTruthy row.genre = true → row'.genre = row.genre) ∧
      (optIntTruthy row.year = true → row'.year = row.year) ∧
      (optStrTruthy row.album_type = true → row'.album_type = row.album_type) ∧
      (row'.genre = row.genre ∨ optStrTruthy row'.genre = true) ∧
      (row'.year = row.year ∨ optIntTruthy row'.year = true) ∧
      (row'.album_type = row.album_type ∨ optStrTruthy row'.album_type = true) ∧
      (row' = row → (process_file tracks cache diags file_path tagRead env).tracks
        = tracks) := by
  unfold process_file
  rw [hrow]
  dsimp only
  split
  · set q := query_musicbrainz (row.track_mbid.getD "") cache diags env with hq
    by_cases hupd : (optStrTruthy q.genre && !optStrTruthy row.genre
        || optIntTruthy q.year && !optIntTruthy row.year
        || optStrTruthy q.album_type && !optStrTruthy row.album_type) = true
    · rw [if_pos hupd]
      refine ⟨_, lookupA_assocUpdate_self tracks file_path _ row hrow,
        ?_, ?_, ?_, ?_, ?_, ?_, ?_⟩
      · intro hg
        dsimp only
        simp [hg]
      · intro hy
        dsimp only
        simp [hy]
      · intro ha
        dsimp only
        simp [ha]
      · dsimp only
        by_cases hqg : (optStrTruthy q.genre && !optStrTruthy row.genre) = true
        · rw [if_pos hqg]
          exact Or.inr (Bool.and_eq_true _ _ ▸ hqg).1
        · rw [if_neg hqg]
          exact Or.inl rfl
      · dsimp only
        by_cases hqy : (optIntTruthy q.year && !optIntTruthy row.year) = true
        · rw [if_pos hqy]
          exact Or.inr (Bool.and_eq_true _ _ ▸ hqy).1
        · rw [if_neg hqy]
          exact Or.inl rfl
      · dsimp only
        by_cases hqa : (optStrTruthy q.album_type && !optStrTruthy row.album_type) = true
        · rw [if_pos hqa]
          exact Or.inr (Bool.and_eq_true _ _ ▸ hqa).1
        · rw [if_neg hqa]
          exact Or.inl rfl
      · intro he
        exfalso
        rcases Bool.or_eq_true _ _ ▸ hupd with hga | hat
        · rcases Bool.or_eq_true _ _ ▸ hga with hg | hy
          · rcases Bool.and_eq_true _ _ ▸ hg with ⟨hq1, hq2⟩
            have : row.genre = q.genre := by
              have := congrArg TrackRow.genre he
              dsimp only at this
              rw [if_pos hg] at this
              exact this.symm
            rw [Bool.not_eq_true'] at hq2
            rw [this, hq1] at hq2
            exact Bool.true_eq_false ▸ hq2
          · rcases Bool.and_eq_true _ _ ▸ hy with ⟨hq1, hq2⟩
            have : row.year = q.year := by
              have := congrArg TrackRow.year he
              dsimp only at this
              rw [if_pos hy] at this
              exact this.symm
            rw [Bool.not_eq_true'] at hq2
            rw [this, hq1] at hq2
            exact Bool.true_eq_false ▸ hq2
        · rcases Bool.and_eq_true _ _ ▸ hat with ⟨hq1, hq2⟩
          have : row.album_type = q.album_type := by
            have := congrArg TrackRow.album_type he
            dsimp only at this
            rw [if_pos hat] at this
            exact this.symm
          rw [Bool.not_eq_true'] at hq2
          rw [this, hq1] at hq2
          exact Bool.true_eq_false ▸ hq2
    · rw [if_neg hupd]
      exact ⟨row, hrow, fun _ => rfl, fun _ => rfl, fun _ => rfl,
        Or.inl rfl, Or.inl rfl, Or.inl rfl, fun _ => rfl⟩
  · exact ⟨row, hrow, fun _ => rfl, fun _ => rfl, fun _ => rfl,
      Or.inl rfl, Or.inl rfl, Or.inl rfl, fun _ => rfl⟩

/-- The existing record for the C3-amended witness: null genre, truthy
year and album_type. -/
def c3w_row : TrackRow :=
  ⟨some "m", none, none, none, some 1999, some "Album", none⟩

/-- Witness for C3 amended at a concrete store: a record with truthy
year and album_type but null genre — the truthy fields are kept and the
null genre may only be backfilled. -/
theorem claim_C3_amended_witness :
    ∃ row', lookupA (process_file [("f", c3w_row)] c3_cache ⟨0, 0, 0⟩ "f"
        (none, none, none) (fun _ => .error ())).tracks "f" = some row' ∧
      (optStrTruthy c3w_row.genre = true → row'.genre = c3w_row.genre) ∧
      (optIntTruthy c3w_row.year = true → row'.year = c3w_row.year) ∧
      (optStrTruthy c3w_row.album_type = true → row'.album_type = c3w_row.album_type) ∧
      (row'.genre = c3w_row.genre ∨ optStrTruthy row'.genre = true) ∧
      (row'.year = c3w_row.year ∨ optIntTruthy row'.year = true) ∧
      (row'.album_type = c3w_row.album_type ∨ optStrTruthy row'.album_type = true) ∧
      (row' = c3w_row → (process_file [("f", c3w_row)] c3_cache ⟨0, 0, 0⟩ "f"
        (none, none, none) (fun _ => .error ())).tracks = [("f", c3w_row)]) :=
  claim_C3_amended [("f", c3w_row)] c3_cache ⟨0, 0, 0⟩ "f" (none, none, none)
    (fun _ => .error ()) c3w_row rfl

/-! ## Claim C5: stability machinery -/

/-- The `process_file` guard is false for this row: either no truthy
recording id, or all three fields already truthy. -/
def rowNeedsNothing (row : TrackRow) : Prop :=
  (optStrTruthy row.track_mbid &&
    (!optStrTruthy row.genre || !optIntTruthy row.year ||
     !optStrTruthy row.album_type)) = false

/-- The cache entry for this row's recording id is authoritative and
offers nothing new: every truthy cached field is already truthy in the
row. -/
def rowCovered (cache : CacheDB) (row : TrackRow) : Prop :=
  ∃ r, lookupA cache (row.track_mbid.getD "") = some r ∧
    optStrTruthy r.recording_json = true ∧
    (optStrTruthy r.genre = true → optStrTruthy row.genre = true) ∧
    (optIntTruthy r.year = true → optIntTruthy row.year = true) ∧
    (optStrTruthy r.album_type = true → optStrTruthy row.album_type = true)

/-- A path is stable: its record exists and re-processing it is a no-op. -/
def StableFile (tracks : TracksDB) (cache : CacheDB) (p : String) : Prop :=
  ∃ row, lookupA tracks p = some row ∧
    (rowNeedsNothing row ∨ rowCovered cache row)

/-- `query_musicbrainz` never disturbs an authoritative cache entry:
upserts only target identifiers whose entry is not authoritative. -/
theorem query_cache_lookup_preserved (mbid : String) (cache : CacheDB)
    (diags : Diagnostics) (env : String → Except Unit MBRecording) (m : String)
    (hm : cacheAuthoritative cache m) :
    lookupA (query_musicbrainz mbid cache diags env).cache m = lookupA cache m := by
  unfold query_musicbrainz
  cases hrow : lookupA cache mbid with
  | some row =>
    dsimp only
    by_cases hp : optStrTruthy row.recording_json = true
    · rw [if_pos hp]
    · rw [if_neg hp]
      unfold freshLookup
      cases env mbid with
      | error e => rfl
      | ok rec =>
        dsimp only
        have hne : m ≠ mbid := by
          intro he
          subst he
          rcases hm with ⟨r, hr, hpr⟩
          rw [hr] at hrow
          injection hrow with h
          subst h
          exact hp hpr
        exact lookupA_upsertA_ne cache mbid m _ hne
  | none =>
    dsimp only
    unfold freshLookup
    cases env mbid with
    | error e => rfl
    | ok rec =>
      dsimp only
      have hne : m ≠ mbid := by
        intro he
        subst he
        rcases hm with ⟨r, hr, _⟩
        rw [hr] at hrow
        exact absurd hrow (by simp)
      exact lookupA_upsertA_ne cache mbid m _ hne

/-- `process_file` never disturbs an authoritative cache entry. -/
theorem process_file_cache_preserved (tracks : TracksDB) (cache : CacheDB)
    (diags : Diagnostics) (q : String)
    (tag : Option String × Option String × Option String)
    (env : String → Except Unit MBRecording) (m : String)
    (hm : cacheAuthoritative cache m) :
    lookupA (process_file tracks cache diags q tag env).cache m =
      lookupA cache m := by
  unfold process_file
  cases hrow : lookupA tracks q with
  | some row =>
    dsimp only
    split
    · split
      · exact query_cache_lookup_preserved _ cache diags env m hm
      · exact query_cache_lookup_preserved _ cache diags env m hm
    · rfl
  | none =>
    dsimp only
    split
    · exact query_cache_lookup_preserved _ cache diags env m hm
    · rfl

/-- `process_file` on one path does not move the record of another. -/
theorem process_file_tracks_preserved_ne (tracks : TracksDB) (cache : CacheDB)
    (diags : Diagnostics) (q : String)
    (tag : Option String × Option String × Option String)
    (env : String → Except Unit MBRecording) (p : String) (hne : p ≠ q) :
    lookupA (process_file tracks cache diags q tag env).tracks p =
      lookupA tracks p := by
  unfold process_file
  cases hrow : lookupA tracks q with
  | some row =>
    dsimp only
    split
    · split
      · exact lookupA_assocUpdate_ne tracks q p _ hne
      · rfl
    · rfl
  | none =>
    dsimp only
    split
    · exact lookupA_append_ne tracks q p _ hne
    · exact lookupA_append_ne tracks q p _ hne

/-- Re-processing a stable path is a complete no-op: store, cache and
diagnostics unchanged, and the remote lookup service not invoked. -/
theorem process_file_noop (tracks : TracksDB) (cache : CacheDB)
    (diags : Diagnostics) (p : String)
    (tag : Option String × Option String × Option String)
    (env : String → Except Unit MBRecording)
    (h : StableFile tracks cache p) :
    ∃ oc, process_file tracks cache diags p tag env =
      ⟨tracks, cache, diags, false, oc⟩ := by
  obtain ⟨row, hrow, hcase⟩ := h
  unfold process_file
  rw [hrow]
  dsimp only
  by_cases hcond : (optStrTruthy row.track_mbid &&
      (!optStrTruthy row.genre || !optIntTruthy row.year ||
       !optStrTruthy row.album_type)) = true
  · rcases hcase with hneed | ⟨r, hr, hpay, hg, hy, ha⟩
    · unfold rowNeedsNothing at hneed
      rw [hneed] at hcond
      exact absurd hcond (by simp)
    · rw [if_pos hcond]
      rw [query_cache_hit (row.track_mbid.getD "") cache diags env r hr hpay]
      dsimp only
      have hg' : (optStrTruthy r.genre && !optStrTruthy row.genre) = false := by
        cases hgt : optStrTruthy r.genre
        · simp
        · simp [hg hgt]
      have hy' : (optIntTruthy r.year && !optIntTruthy row.year) = false := by
        cases hyt : optIntTruthy r.year
        · simp
        · simp [hy hyt]
      have ha' : (optStrTruthy r.album_type && !optStrTruthy row.album_type) = false := by
        cases hat : optStrTruthy r.album_type
        · simp
        · simp [ha hat]
      rw [hg', hy', ha']
      rw [if_neg (by simp)]
      exact ⟨_, rfl⟩
  · rw [if_neg hcond]
    exact ⟨_, rfl⟩

/-- Stability of a path survives the processing of any path (the same
path by the no-op lemma, another path because its record and its
authoritative cache entry are untouched). -/
theorem process_file_stable_preserved (tracks : TracksDB) (cache : CacheDB)
    (diags : Diagnostics) (q : String)
    (tag : Option String × Option String × Option String)
    (env : String → Except Unit MBRecording) (p : String)
    (h : StableFile tracks cache p) :
    StableFile (process_file tracks cache diags q tag env).tracks
      (process_file tracks cache diags q tag env).cache p := by
  by_cases hpq : p = q
  · subst hpq
    rcases process_file_noop tracks cache diags p tag env h with ⟨oc, heq⟩
    rw [heq]
    exact h
  · rcases h with ⟨row, hrow, hcase⟩
    refine ⟨row, ?_, ?_⟩
    · rw [process_file_tracks_preserved_ne tracks cache diags q tag env p hpq]
      exact hrow
    · rcases hcase with hneed | ⟨r, hr, hp', hg, hy, ha⟩
      · exact Or.inl hneed
      · refine Or.inr ⟨r, ?_, hp', hg, hy, ha⟩
        rw [process_file_cache_preserved tracks cache diags q tag env _
          ⟨r, hr, hp'⟩]
        exact hr

/-- After any `query_musicbrainz` call, the cache entry for the queried
identifier is authoritative and holds exactly the returned fields,
provided the remote lookup cannot fail. -/
theorem query_establishes (mbid : String) (cache : CacheDB) (diags : Diagnostics)
    (env : String → Except Unit MBRecording)
    (henv : ∀ m, ∃ rec, env m = .ok rec) :
    ∃ r, lookupA (query_musicbrainz mbid cache diags env).cache mbid = some r ∧
      optStrTruthy r.recording_json = true ∧
      r.genre = (query_musicbrainz mbid cache diags env).genre ∧
      r.year = (query_musicbrainz mbid cache diags env).year ∧
      r.album_type = (query_musicbrainz mbid cache diags env).album_type := by
  have hfresh : ∀ rec, env mbid = .ok rec →
      ∃ r, lookupA (freshLookup mbid cache diags env).cache mbid = some r ∧
        optStrTruthy r.recording_json = true ∧
        r.genre = (freshLookup mbid cache diags env).genre ∧
        r.year = (freshLookup mbid cache diags env).year ∧
        r.album_type = (freshLookup mbid cache diags env).album_type := by
    intro rec hok
    unfold freshLookup
    rw [hok]
    dsimp only
    refine ⟨_, lookupA_upsertA_self cache mbid _, ?_, rfl, rfl, rfl⟩
    exact decide_eq_true (dumpsRecording_ne_empty rec)
  unfold query_musicbrainz
  cases hrow : lookupA cache mbid with
  | some row =>
    dsimp only
    by_cases hp : optStrTruthy row.recording_json = true
    · rw [if_pos hp]
      exact ⟨row, hrow, hp, rfl, rfl, rfl⟩
    · rw [if_neg hp]
      rcases henv mbid with ⟨rec, hok⟩
      exact hfresh rec hok
  | none =>
    dsimp only
    rcases henv mbid with ⟨rec, hok⟩
    exact hfresh rec hok

/-- When every remote lookup succeeds, processing a file leaves it
stable: its record exists and a second processing would be a no-op. -/
theorem process_file_establishes (tracks : TracksDB) (cache : CacheDB)
    (diags : Diagnostics) (p : String)
    (tag : Option String × Option String × Option String)
    (env : String → Except Unit MBRecording)
    (henv : ∀ m, ∃ rec, env m = .ok rec) :
    StableFile (process_file tracks cache diags p tag env).tracks
      (process_file tracks cache diags p tag env).cache p := by
  obtain ⟨mbid, am, rgm⟩ := tag
  unfold process_file
  cases hrow : lookupA tracks p with
  | some row =>
    dsimp only
    by_cases hcond : (optStrTruthy row.track_mbid &&
        (!optStrTruthy row.genre || !optIntTruthy row.year ||
         !optStrTruthy row.album_type)) = true
    · rw [if_pos hcond]
      rcases query_establishes (row.track_mbid.getD "") cache diags env henv with
        ⟨r, hqr, hqpay, hgq, hyq, haq⟩
      set q := query_musicbrainz (row.track_mbid.getD "") cache diags env with hq
      by_cases hupd : (optStrTruthy q.genre && !optStrTruthy row.genre
          || optIntTruthy q.year && !optIntTruthy row.year
          || optStrTruthy q.album_type && !optStrTruthy row.album_type) = true
      · rw [if_pos hupd]
        dsimp only
        refine ⟨_, lookupA_assocUpdate_self tracks p _ row hrow,
          Or.inr ⟨r, hqr, hqpay, ?_, ?_, ?_⟩⟩
        · intro hrg
          rw [hgq] at hrg
          dsimp only
          cases hb : optStrTruthy row.genre <;> simp [hrg, hb]
        · intro hry
          rw [hyq] at hry
          dsimp only
          cases hb : optIntTruthy row.year <;> simp [hry, hb]
        · intro hra
          rw [haq] at hra
          dsimp only
          cases hb : optStrTruthy row.album_type <;> simp [hra, hb]
      · rw [if_neg hupd]
        dsimp only
        have hupd' : (optStrTruthy q.genre && !optStrTruthy row.genre
            || optIntTruthy q.year && !optIntTruthy row.year
            || optStrTruthy q.album_type && !optStrTruthy row.album_type) = false := by
          cases hx : (optStrTruthy q.genre && !optStrTruthy row.genre
            || optIntTruthy q.year && !optIntTruthy row.year
            || optStrTruthy q.album_type && !optStrTruthy row.album_type)
          · rfl
          · exact absurd hx hupd
        rcases Bool.or_eq_false_iff.mp hupd' with ⟨h12, h3⟩
        rcases Bool.or_eq_false_iff.mp h12 with ⟨h1, h2⟩
        refine ⟨row, hrow, Or.inr ⟨r, hqr, hqpay, ?_, ?_, ?_⟩⟩
        · intro hrg
          rw [hgq] at hrg
          rcases Bool.and_eq_false_iff.mp h1 with hx | hx
          · rw [hrg] at hx
            exact absurd hx (by simp)
          · simpa using hx
        · intro hry
          rw [hyq] at hry
          rcases Bool.and_eq_false_iff.mp h2 with hx | hx
          · rw [hry] at hx
            exact absurd hx (by simp)
          · simpa using hx
        · intro hra
          rw [haq] at hra
          rcases Bool.and_eq_false_iff.mp h3 with hx | hx
          · rw [hra] at hx
            exact absurd hx (by simp)
          · simpa using hx
    · rw [if_neg hcond]
      dsimp only
      refine ⟨row, hrow, Or.inl ?_⟩
      cases hx : (optStrTruthy row.track_mbid &&
          (!optStrTruthy row.genre || !optIntTruthy row.year ||
           !optStrTruthy row.album_type))
      · exact hx
      · exact absurd hx hcond
  | none =>
    dsimp only
    by_cases hmb : optStrTruthy mbid = true
    · rw [if_pos hmb]
      dsimp only
      rcases query_establishes (mbid.getD "") cache diags env henv with
        ⟨r, hqr, hqpay, hgq, hyq, haq⟩
      refine ⟨_, lookupA_append_self tracks p _ hrow,
        Or.inr ⟨r, hqr, hqpay, ?_, ?_, ?_⟩⟩
      · intro h
        rw [hgq] at h
        exact h
      · intro h
        rw [hyq] at h
        exact h
      · intro h
        rw [haq] at h
        exact h
    · rw [if_neg hmb]
      dsimp only
      refine ⟨_, lookupA_append_self tracks p _ hrow, Or.inl ?_⟩
      unfold rowNeedsNothing
      dsimp only
      cases hx : optStrTruthy mbid
      · rfl
      · exact absurd hx hmb

/-- One unfolding step of `walk_and_process`. -/
theorem walk_cons (env : String → Except Unit MBRecording)
    (tag : String → Option String × Option String × Option String)
    (f : String) (rest : List String) (st : RunState) :
    walk_and_process env tag (f :: rest) st =
    walk_and_process env tag rest
      ⟨(process_file st.tracks st.cache st.diags f (tag f) env).tracks,
       (process_file st.tracks st.cache st.diags f (tag f) env).cache,
       (process_file st.tracks st.cache st.diags f (tag f) env).diags,
       st.remoteCalls +
         (if (process_file st.tracks st.cache st.diags f (tag f) env).usedRemote
          then 1 else 0)⟩ := rfl

/-- A stable path stays stable through a whole run over any file list. -/
theorem walk_stable_preserved (env : String → Except Unit MBRecording)
    (tag : String → Option String × Option String × Option String)
    (files : List String) :
    ∀ (st : RunState) (p : String), StableFile st.tracks st.cache p →
      StableFile (walk_and_process env tag files st).tracks
        (walk_and_process env tag files st).cache p := by
  induction files with
  | nil => exact fun st p h => h
  | cons f rest ih =>
    intro st p h
    rw [walk_cons]
    exact ih _ p (process_file_stable_preserved st.tracks st.cache st.diags f
      (tag f) env p h)

/-- When every remote lookup succeeds, a completed run leaves every
processed path stable. -/
theorem walk_establishes (env : String → Except Unit MBRecording)
    (tag : String → Option String × Option String × Option String)
    (henv : ∀ m, ∃ rec, env m = .ok rec) (files : List String) :
    ∀ (st : RunState) (p : String), p ∈ files →
      StableFile (walk_and_process env tag files st).tracks
        (walk_and_process env tag files st).cache p := by
  induction files with
  | nil => intro st p hp; cases hp
  | cons f rest ih =>
    intro st p hp
    rw [walk_cons]
    rcases List.mem_cons.mp hp with hpf | hpr
    · subst hpf
      exact walk_stable_preserved env tag rest _ p
        (process_file_establishes st.tracks st.cache st.diags p (tag p) env henv)
    · exact ih _ p hpr

/-- Running over files that are all stable is the identity on the run
state: nothing is read from the remote service and nothing changes. -/
theorem walk_noop (env : String → Except Unit MBRecording)
    (tag : String → Option String × Option String × Option String)
    (files : List String) :
    ∀ st : RunState, (∀ p ∈ files, StableFile st.tracks st.cache p) →
      walk_and_process env tag files st = st := by
  induction files with
  | nil => intro st _; rfl
  | cons f rest ih =>
    intro st h
    rw [walk_cons]
    rcases process_file_noop st.tracks st.cache st.diags f (tag f) env
      (h f (List.mem_cons_self f rest)) with ⟨oc, heq⟩
    rw [heq]
    exact ih st (fun p hp => h p (List.mem_cons_of_mem f hp))

/-- The failing lookup service and the tag reader for the C5
counterexample. -/
def c5_env : String → Except Unit MBRecording := fun _ => .error ()

def c5_tag : String → Option String × Option String × Option String :=
  fun _ => (some "m", none, none)

/-- First enrichment run of the C5 counterexample: one file `f` whose
recording-id lookup fails, leaving a record with null fields and no
cache entry. -/
def c5_run1 : RunState := walk_and_process c5_env c5_tag ["f"] ⟨[], [], ⟨0, 0, 0⟩, 0⟩

/-- Second enrichment run of the C5 counterexample, over the unchanged
directory and the store left by the first run. -/
def c5_run2 : RunState :=
  walk_and_process c5_env c5_tag ["f"] ⟨c5_run1.tracks, c5_run1.cache, c5_run1.diags, 0⟩

/-- C5 counterexample: when the single first-run lookup failed, the
re-run over the unchanged directory and store performs a fresh remote
lookup (the failure is retried), refuting "zero fresh remote lookups on
the second pass".  (Here the track store and cache do happen to stay
unchanged because the retry fails again.) -/
theorem claim_C5_counterexample :
    c5_run1.remoteCalls = 1 ∧ c5_run2.remoteCalls = 1 ∧
    c5_run2.tracks = c5_run1.tracks ∧ c5_run2.cache = c5_run1.cache := by
  refine ⟨rfl, rfl, rfl, rfl⟩

/-- C5 amended: idempotence holds provided every remote lookup of the
first run succeeded.  Then re-running enrichment over the same file
list — with any tag reader and any remote behaviour, including total
failure — leaves the track store, the recording cache and the
diagnostics unchanged and performs zero fresh remote lookups.  (When a
first-run lookup failed, the second run retries it, as the
counterexample shows.) -/
theorem claim_C5_amended (env1 env2 : String → Except Unit MBRecording)
    (tag1 tag2 : String → Option String × Option String × Option String)
    (files : List String) (t0 : TracksDB) (c0 : CacheDB) (d0 : Diagnostics)
    (henv1 : ∀ m, ∃ rec, env1 m = .ok rec) :
    walk_and_process env2 tag2 files
      ⟨(walk_and_process env1 tag1 files ⟨t0, c0, d0, 0⟩).tracks,
       (walk_and_process env1 tag1 files ⟨t0, c0, d0, 0⟩).cache,
       (walk_and_process env1 tag1 files ⟨t0, c0, d0, 0⟩).diags, 0⟩ =
      ⟨(walk_and_process env1 tag1 files ⟨t0, c0, d0, 0⟩).tracks,
       (walk_and_process env1 tag1 files ⟨t0, c0, d0, 0⟩).cache,
       (walk_and_process env1 tag1 files ⟨t0, c0, d0, 0⟩).diags, 0⟩ := by
  apply walk_noop
  intro p hp
  exact walk_establishes env1 tag1 henv1 files ⟨t0, c0, d0, 0⟩ p hp

/-- An all-succeeding lookup service returning an empty recording
payload, for the C5-amended witness. -/
def c5w_env1 : String → Except Unit MBRecording := fun _ => .ok ⟨[], [], []⟩

/-- Witness for C5 amended: after a first run of one file under an
all-succeeding lookup service, a second run — here under a service that
now always fails — changes nothing and performs zero fresh lookups. -/
theorem claim_C5_amended_witness :
    walk_and_process c5_env c5_tag ["f"]
      ⟨(walk_and_process c5w_env1 c5_tag ["f"] ⟨[], [], ⟨0, 0, 0⟩, 0⟩).tracks,
       (walk_and_process c5w_env1 c5_tag ["f"] ⟨[], [], ⟨0, 0, 0⟩, 0⟩).cache,
       (walk_and_process c5w_env1 c5_tag ["f"] ⟨[], [], ⟨0, 0, 0⟩, 0⟩).diags, 0⟩ =
      ⟨(walk_and_process c5w_env1 c5_tag ["f"] ⟨[], [], ⟨0, 0, 0⟩, 0⟩).tracks,
       (walk_and_process c5w_env1 c5_tag ["f"] ⟨[], [], ⟨0, 0, 0⟩, 0⟩).cache,
       (walk_and_process c5w_env1 c5_tag ["f"] ⟨[], [], ⟨0, 0, 0⟩, 0⟩).diags, 0⟩ :=
  claim_C5_amended c5w_env1 c5_env c5_tag c5_tag ["f"] [] [] ⟨0, 0, 0⟩
    (fun _ => ⟨⟨[], [], []⟩, rfl⟩)

end SmartPlayer
